import Mathlib

/-!
Shallow embedding of the MTS test driver (xtesting/core/mts.py) and proofs
about its CSV result parsing, XML test-definition parsing, test-case subset
validation, and run orchestration.

Counters and the derived pass percentage live on the driver object; the CSV
file is modelled as a list of rows, each row a list of fields (the semicolon
splitting having already been done by the csv reader). The pass percentage is
modelled over the rationals. The per-row report table (the pretty-printed
message and the tests-data dictionaries) is not tracked except for the one
observable effect it has: building a table row for a 3-field CSV row reads the
local variable holding the last seen 2-field group name, which raises a
name-resolution error when no 2-field row has occurred yet; that abort is
modelled by the Bool component of the parser result.
-/

/-- Mutable instance state of MTSLauncher relevant to result parsing:
the four counters and the result percentage set by parse_results, and the
testcases list set by parse_xml_test_file. Counters start at 0 in
MTSLauncher.__init__. -/
structure MTS where
  total_tests : Nat
  pass_tests : Nat
  fail_tests : Nat
  skip_tests : Nat
  result : ℚ
  testcases : List String
deriving Repr, DecidableEq

/-- Driver state right after MTSLauncher.__init__: all counters zero, no
testcases. The result field is modelled from the spec: the orchestration base
class starts a run with no score, taken here as 0. -/
def initMTS : MTS :=
  { total_tests := 0, pass_tests := 0, fail_tests := 0, skip_tests := 0
    result := 0, testcases := [] }

/-- The row loop of parse_results. rownum counts rows from 0; the row at
rownum 0 is skipped. A 2-field row binds the group name (the local variable
test_name). A 3-field row increments total_tests and exactly one of
pass_tests / fail_tests / skip_tests when its third field is the literal
OK / Failed / ?, then builds a table row that reads test_name: when no 2-field
row has been seen yet that read raises (UnboundLocalError), modelled by
returning the state mutated so far paired with false. Rows with any other
field count are ignored. -/
def processRows : List (List String) → Nat → Option String → MTS → MTS × Bool
  | [], _, _, s => (s, true)
  | row :: rest, rownum, tname, s =>
    if rownum > 0 then
      if row.length = 2 then
        processRows rest (rownum + 1) (some (row.getD 0 "")) s
      else if row.length = 3 then
        let st := row.getD 2 ""
        let s1 : MTS :=
          if st = "OK" then
            { s with total_tests := s.total_tests + 1
                     pass_tests := s.pass_tests + 1 }
          else if st = "Failed" then
            { s with total_tests := s.total_tests + 1
                     fail_tests := s.fail_tests + 1 }
          else if st = "?" then
            { s with total_tests := s.total_tests + 1
                     skip_tests := s.skip_tests + 1 }
          else
            { s with total_tests := s.total_tests + 1 }
        match tname with
        | none => (s1, false)
        | some _ => processRows rest (rownum + 1) tname s1
      else
        processRows rest (rownum + 1) tname s
    else
      processRows rest (rownum + 1) tname s

/-- parse_results of MTSLauncher, as a function of the rows of testPlan.csv.
Runs the row loop, then computes the pass percentage as
100 * (pass_tests / total_tests); the ZeroDivisionError raised when
total_tests is zero is caught and leaves result unchanged. The Bool is false
when the row loop aborted with the unbound group-name error, in which case the
percentage step is never reached. -/
def parse_results (s : MTS) (rows : List (List String)) : MTS × Bool :=
  let pr := processRows rows 0 none s
  if pr.2 then
    if pr.1.total_tests = 0 then (pr.1, true)
    else ({ pr.1 with
            result :=
              100 * ((pr.1.pass_tests : ℚ) / (pr.1.total_tests : ℚ)) },
          true)
  else pr

/-- Status field of a 3-field CSV row (third field, as read by row[2]). -/
def rowStatus (row : List String) : String := row.getD 2 ""

/-- Number of 3-field rows in a row list. -/
def cntTotal : List (List String) → Nat
  | [] => 0
  | row :: rest => (if row.length = 3 then 1 else 0) + cntTotal rest

/-- Number of 3-field rows whose status field is the literal OK. -/
def cntPass : List (List String) → Nat
  | [] => 0
  | row :: rest =>
    (if row.length = 3 ∧ rowStatus row = "OK" then 1 else 0) + cntPass rest

/-- Number of 3-field rows whose status field is the literal Failed. -/
def cntFail : List (List String) → Nat
  | [] => 0
  | row :: rest =>
    (if row.length = 3 ∧ rowStatus row = "Failed" then 1 else 0) + cntFail rest

/-- Number of 3-field rows whose status field is the literal ?. -/
def cntSkip : List (List String) → Nat
  | [] => 0
  | row :: rest =>
    (if row.length = 3 ∧ rowStatus row = "?" then 1 else 0) + cntSkip rest

/-- Number of 3-field rows whose status field is none of OK, Failed, ?. -/
def cntUnrec : List (List String) → Nat
  | [] => 0
  | row :: rest =>
    (if row.length = 3 ∧ rowStatus row ≠ "OK" ∧ rowStatus row ≠ "Failed" ∧
        rowStatus row ≠ "?" then 1 else 0) + cntUnrec rest

/-- Whether the row loop of parse_results completes without the unbound
group-name error, as a function of the rows past the header and the current
group name. -/
def okRun : List (List String) → Option String → Bool
  | [], _ => true
  | row :: rest, tname =>
    if row.length = 2 then okRun rest (some (row.getD 0 ""))
    else if row.length = 3 then tname.isSome && okRun rest tname
    else okRun rest tname

/-- An XML element: a tag, an optional name attribute (the only attribute the
driver reads), and child elements. A parsed test-definition document is the
root element of such a tree. -/
inductive XElem where
  | elem (tag : String) (nameAttr : Option String) (children : List XElem)

mutual

/-- Names collected by the XPath query testcase nodes below test nodes: the
name attributes, in document order, of every element tagged testcase having a
strict ancestor tagged test. inTest records whether such an ancestor has been
seen on the path from the root. -/
def collectTestcaseNames (inTest : Bool) : XElem → List String
  | .elem tag nm children =>
    (if inTest && tag == "testcase" then nm.toList else []) ++
      collectTestcaseNamesList (inTest || tag == "test") children

/-- collectTestcaseNames mapped over a child list, concatenated in order. -/
def collectTestcaseNamesList (inTest : Bool) : List XElem → List String
  | [] => []
  | e :: rest =>
    collectTestcaseNames inTest e ++ collectTestcaseNamesList inTest rest

end

/-- parse_xml_test_file of MTSLauncher. The document argument is none when
the file is not well-formed XML: etree.parse then raises XMLSyntaxError,
which is caught and logged, nb_testcases keeps its initial value -1 and the
stored testcases list is untouched. For a well-formed document the query
result is stored in self.testcases and its length returned. -/
def parse_xml_test_file (s : MTS) (xml : Option XElem) : Int × MTS :=
  match xml with
  | none => (-1, s)
  | some root =>
    let tcs := collectTestcaseNames false root
    ((tcs.length : Int), { s with testcases := tcs })

/-- check_enabled_mts_test_cases of MTSLauncher: when the enabled list is
non-empty, scan it and return false at the first name not present in the
stored testcases list; otherwise return true. -/
def check_enabled_mts_test_cases (testcases : List String) :
    List String → Bool
  | [] => true
  | e :: rest =>
    if e ∈ testcases then check_enabled_mts_test_cases testcases rest
    else false

/-- Filesystem and subprocess side effects performed by execute, in order. -/
inductive Effect where
  | removeResultCsv
  | rmStatsDir
  | mkStatsDir
  | rmLogsDir
  | mkLogsDir
  | launch (cmd : String)
deriving Repr, DecidableEq

/-- Fixed MTS installation root. -/
def mts_install_dir : String := "/opt/mts"

/-- Statistics report directory derived from res_dir in __init__. -/
def mts_stats_dir (res_dir : String) : String :=
  res_dir ++ "/mts_stats_report"

/-- Logs directory derived from res_dir in __init__; ends with a path
separator because the external tool mishandles a path without one. -/
def mts_logs_dir (res_dir : String) : String := res_dir ++ "/mts_logs/"

/-- Fixed location of the CSV result file. -/
def mts_result_csv_file : String := mts_install_dir ++ "/logs/testPlan.csv"

/-- Command line built by execute for the external tool. -/
def mtsCmd (res_dir test_file enabled_str log_level store_method : String) :
    String :=
  "cd " ++ (mts_install_dir ++ "/bin") ++ " && ./startCmd.sh " ++ test_file ++
    " " ++ enabled_str ++ " -sequential -levelLog:" ++ log_level ++
    " -storageLog:" ++ store_method ++ " -config:stats.REPORT_DIRECTORY+" ++
    mts_stats_dir res_dir ++ " -config:logs.STORAGE_DIRECTORY+" ++
    mts_logs_dir res_dir ++ " -genReport:true -showRep:false"

/-- Keyword arguments read by execute and run: test_file is looked up
unconditionally (a missing key raises KeyError), the others fall back to
defaults when absent. -/
structure ExecArgs where
  test_file : Option String
  log_level : Option String
  store_method : Option String
  testcases : Option (List String)
deriving Repr, DecidableEq

/-- execute of MTSLauncher. Models the filesystem as three Booleans saying
whether the previous result file, stats directory and logs directory exist,
and the blocking subprocess as its exit code launchExit. Returns the exit
code together with the ordered side effects performed. A missing test_file
raises KeyError, caught at the bottom: -1 is returned with no side effect.
When the enabled-testcase list is non-empty and fails the subset check, -3 is
returned before any filesystem operation or launch. -/
def execute (s : MTS) (res_dir : String) (args : ExecArgs)
    (csvExists statsIsDir logsIsDir : Bool) (launchExit : Int) :
    Int × List Effect :=
  match args.test_file with
  | none => (-1, [])
  | some tf =>
    let log_level := args.log_level.getD "INFO"
    let store_method := args.store_method.getD "FILE"
    let enabled := args.testcases.getD []
    let enabled_str :=
      if enabled.isEmpty then "" else String.intercalate " " enabled
    if !enabled.isEmpty &&
        !check_enabled_mts_test_cases s.testcases enabled then
      (-3, [])
    else
      (launchExit,
        (if csvExists then [Effect.removeResultCsv] else []) ++
          (if statsIsDir then [Effect.rmStatsDir] else []) ++
          [Effect.mkStatsDir] ++
          (if logsIsDir then [Effect.rmLogsDir] else []) ++
          [Effect.mkLogsDir] ++
          [Effect.launch
            (mtsCmd res_dir tf enabled_str log_level store_method)])

/-- Modelled from the spec: success exit status of the orchestration base
class TestCase (not under src); the spec only fixes a closed status set in
which success and run-error are distinct. -/
def EX_OK : Int := 0

/-- Modelled from the spec: run-error exit status of the orchestration base
class TestCase (not under src); distinct from EX_OK. -/
def EX_RUN_ERROR : Int := 70

/-- run of MTSLauncher. xml is the parsed content of the test-definition
file (none when not well-formed), csvFile the content of testPlan.csv after
the subprocess ran (none when the file is missing, so that open raises).
Returns the exit status, the side effects performed, and the final driver
state. A missing test_file key raises KeyError inside the try, caught by the
broad except. When the definition yields no test case, execute is never
called and no result is parsed. When execute returns 0 the results are
parsed; a parse abort downgrades the status back to run-error. -/
def run (s : MTS) (res_dir : String) (args : ExecArgs) (xml : Option XElem)
    (csvExists statsIsDir logsIsDir : Bool) (launchExit : Int)
    (csvFile : Option (List (List String))) : Int × List Effect × MTS :=
  let s0 : MTS := { s with result := 0 }
  match args.test_file with
  | none => (EX_RUN_ERROR, [], s0)
  | some _ =>
    let (nb, s1) := parse_xml_test_file s0 xml
    if nb > 0 then
      let (code, effs) :=
        execute s1 res_dir args csvExists statsIsDir logsIsDir launchExit
      if code = 0 then
        match csvFile with
        | none => (EX_RUN_ERROR, effs, s1)
        | some rows =>
          match parse_results s1 rows with
          | (s2, true) => (EX_OK, effs, s2)
          | (s2, false) => (EX_RUN_ERROR, effs, s2)
      else (EX_RUN_ERROR, effs, s1)
    else (EX_RUN_ERROR, [], s1)

/-- Scenario C of the spec: header, one 2-field group row, and two 3-field
rows with statuses OK and Failed. -/
def csvScenarioC : List (List String) :=
  [["MTS test", "MTS test case", "status"],
   ["SipTests", ""],
   ["  Registration", "x", "OK"],
   ["  Call", "y", "Failed"]]

/-- A CSV report with one 3-field row carrying an unrecognized status literal
next to one recognized row. -/
def csvUnrecognized : List (List String) :=
  [["MTS test", "MTS test case", "status"],
   ["SipTests", ""],
   ["  Registration", "x", "Weird"],
   ["  Call", "y", "OK"]]

/-- A CSV report whose first data row after the header has three fields, so
no 2-field group row has bound the group name yet. -/
def csvNoGroup : List (List String) :=
  [["MTS test", "MTS test case", "status"],
   ["  Registration", "x", "OK"]]

/-! Helper lemmas. -/

lemma processRows_zero (rows : List (List String)) (tn : Option String)
    (s : MTS) : processRows rows 0 tn s = processRows rows.tail 1 tn s := by
  cases rows with
  | nil => rfl
  | cons row rest => rfl

lemma processRows_snd (rows : List (List String)) :
    ∀ (n : Nat) (tn : Option String) (s : MTS), 0 < n →
      (processRows rows n tn s).2 = okRun rows tn := by
  induction rows with
  | nil => intro n tn s _; cases n <;> rfl
  | cons row rest ih =>
    intro n tn s hn
    simp only [processRows, okRun]
    rw [if_pos hn]
    by_cases h2 : row.length = 2
    · rw [if_pos h2, if_pos h2]
      exact ih (n + 1) _ s (Nat.succ_pos n)
    · rw [if_neg h2, if_neg h2]
      by_cases h3 : row.length = 3
      · rw [if_pos h3, if_pos h3]
        cases tn with
        | none => simp
        | some a =>
          simp only [Option.isSome_some, Bool.true_and]
          exact ih (n + 1) (some a) _ (Nat.succ_pos n)
      · rw [if_neg h3, if_neg h3]
        exact ih (n + 1) tn s (Nat.succ_pos n)

lemma processRows_fst (rows : List (List String)) :
    ∀ (n : Nat) (tn : Option String) (s : MTS), 0 < n →
      okRun rows tn = true →
      (processRows rows n tn s).1 =
        { s with
          total_tests := s.total_tests + cntTotal rows
          pass_tests := s.pass_tests + cntPass rows
          fail_tests := s.fail_tests + cntFail rows
          skip_tests := s.skip_tests + cntSkip rows } := by
  induction rows with
  | nil =>
    intro n tn s hn _
    cases n with
    | zero => exact absurd hn (by decide)
    | succ m => simp [processRows, cntTotal, cntPass, cntFail, cntSkip]
  | cons row rest ih =>
    intro n tn s hn hok
    simp only [okRun] at hok
    simp only [processRows]
    rw [if_pos hn]
    simp only [cntTotal, cntPass, cntFail, cntSkip]
    by_cases h2 : row.length = 2
    · rw [if_pos h2] at hok ⊢
      rw [ih (n + 1) _ s (Nat.succ_pos n) hok]
      have hne3 : ¬ row.length = 3 := by omega
      simp [h2, hne3, rowStatus]
    · rw [if_neg h2] at hok ⊢
      by_cases h3 : row.length = 3
      · rw [if_pos h3] at hok ⊢
        cases tn with
        | none => simp at hok
        | some a =>
          simp only [Option.isSome_some, Bool.true_and] at hok
          obtain ⟨t, p, f, k, res, tcs⟩ := s
          by_cases hOK : row.getD 2 "" = "OK"
          · rw [if_pos hOK, ih (n + 1) (some a) _ (Nat.succ_pos n) hok]
            have hF : ¬ (row.getD 2 "" = "Failed") := by rw [hOK]; decide
            have hS : ¬ (row.getD 2 "" = "?") := by rw [hOK]; decide
            simp only [rowStatus, h3, hOK, hF, hS, MTS.mk.injEq]
            simp
            omega
          · rw [if_neg hOK]
            by_cases hF : row.getD 2 "" = "Failed"
            · rw [if_pos hF, ih (n + 1) (some a) _ (Nat.succ_pos n) hok]
              have hS : ¬ (row.getD 2 "" = "?") := by rw [hF]; decide
              simp only [rowStatus, h3, hOK, hF, hS, MTS.mk.injEq]
              simp
              omega
            · rw [if_neg hF]
              by_cases hS : row.getD 2 "" = "?"
              · rw [if_pos hS, ih (n + 1) (some a) _ (Nat.succ_pos n) hok]
                simp only [rowStatus, h3, hOK, hF, hS, MTS.mk.injEq]
                simp
                omega
              · rw [if_neg hS, ih (n + 1) (some a) _ (Nat.succ_pos n) hok]
                simp only [rowStatus, h3, hOK, hF, hS, MTS.mk.injEq]
                simp
                omega
      · rw [if_neg h3] at hok ⊢
        rw [ih (n + 1) tn s (Nat.succ_pos n) hok]
        simp [h2, h3, rowStatus]

lemma parse_results_snd_eq (s : MTS) (rows : List (List String)) :
    (parse_results s rows).2 = okRun rows.tail none := by
  have h2 := processRows_snd rows.tail 1 none s (by decide)
  simp only [parse_results]
  rw [processRows_zero]
  cases hok : okRun rows.tail none with
  | false =>
    rw [hok] at h2
    simp [h2]
  | true =>
    rw [hok] at h2
    rw [h2, if_pos rfl]
    split <;> rfl

lemma parse_results_spec (s : MTS) (rows : List (List String))
    (h : okRun rows.tail none = true) :
    (parse_results s rows).2 = true ∧
    (parse_results s rows).1.total_tests = s.total_tests + cntTotal rows.tail ∧
    (parse_results s rows).1.pass_tests = s.pass_tests + cntPass rows.tail ∧
    (parse_results s rows).1.fail_tests = s.fail_tests + cntFail rows.tail ∧
    (parse_results s rows).1.skip_tests = s.skip_tests + cntSkip rows.tail ∧
    (parse_results s rows).1.testcases = s.testcases ∧
    ((parse_results s rows).1.total_tests = 0 →
      (parse_results s rows).1.result = s.result) ∧
    (0 < (parse_results s rows).1.total_tests →
      (parse_results s rows).1.result =
        100 * (((parse_results s rows).1.pass_tests : ℚ) /
          ((parse_results s rows).1.total_tests : ℚ))) := by
  have h1 := processRows_fst rows.tail 1 none s (by decide) h
  have h2 := processRows_snd rows.tail 1 none s (by decide)
  rw [h] at h2
  simp only [parse_results]
  rw [processRows_zero, h2, h1, if_pos rfl]
  by_cases h0 : s.total_tests + cntTotal rows.tail = 0
  · rw [if_pos h0]
    refine ⟨rfl, rfl, rfl, rfl, rfl, rfl, fun _ => rfl, fun hlt => ?_⟩
    exfalso
    have hlt' : 0 < s.total_tests + cntTotal rows.tail := hlt
    omega
  · rw [if_neg h0]
    refine ⟨rfl, rfl, rfl, rfl, rfl, rfl, fun hz => ?_, fun _ => rfl⟩
    exact absurd (show s.total_tests + cntTotal rows.tail = 0 from hz) h0

lemma cnt_split (rows : List (List String)) :
    cntTotal rows =
      cntPass rows + cntFail rows + cntSkip rows + cntUnrec rows := by
  induction rows with
  | nil => rfl
  | cons row rest ih =>
    simp only [cntTotal, cntPass, cntFail, cntSkip, cntUnrec]
    by_cases h3 : row.length = 3
    · by_cases hOK : rowStatus row = "OK"
      · have hF : ¬ rowStatus row = "Failed" := by rw [hOK]; decide
        have hS : ¬ rowStatus row = "?" := by rw [hOK]; decide
        rw [if_pos h3, if_pos ⟨h3, hOK⟩, if_neg (fun hc => hF hc.2),
          if_neg (fun hc => hS hc.2), if_neg (fun hc => hc.2.1 hOK)]
        omega
      · by_cases hF : rowStatus row = "Failed"
        · have hS : ¬ rowStatus row = "?" := by rw [hF]; decide
          rw [if_pos h3, if_neg (fun hc => hOK hc.2), if_pos ⟨h3, hF⟩,
            if_neg (fun hc => hS hc.2), if_neg (fun hc => hc.2.2.1 hF)]
          omega
        · by_cases hS : rowStatus row = "?"
          · rw [if_pos h3, if_neg (fun hc => hOK hc.2),
              if_neg (fun hc => hF hc.2), if_pos ⟨h3, hS⟩,
              if_neg (fun hc => hc.2.2.2 hS)]
            omega
          · rw [if_pos h3, if_neg (fun hc => hOK hc.2),
              if_neg (fun hc => hF hc.2), if_neg (fun hc => hS hc.2),
              if_pos ⟨h3, hOK, hF, hS⟩]
            omega
    · rw [if_neg h3, if_neg (fun hc => h3 hc.1), if_neg (fun hc => h3 hc.1),
        if_neg (fun hc => h3 hc.1), if_neg (fun hc => h3 hc.1)]
      omega

lemma check_enabled_iff_mem (tcs req : List String) :
    check_enabled_mts_test_cases tcs req = true ↔ ∀ x ∈ req, x ∈ tcs := by
  induction req with
  | nil => simp [check_enabled_mts_test_cases]
  | cons e rest ih =>
    by_cases he : e ∈ tcs
    · simp [check_enabled_mts_test_cases, he, ih]
    · simp [check_enabled_mts_test_cases, he]

/-! Claim theorems. -/

/-- Claim C1: for every CSV report parsed by parse_results on a driver whose
counters are consistent, after the full file is consumed (no abort) the total
counter equals the sum of the pass, fail and skip counters plus the number of
3-field data rows whose status field is none of the literals OK, Failed, ?. -/
theorem parse_results_total_is_sum (s : MTS) (rows : List (List String))
    (hs : s.total_tests = s.pass_tests + s.fail_tests + s.skip_tests)
    (hok : (parse_results s rows).2 = true) :
    (parse_results s rows).1.total_tests =
      (parse_results s rows).1.pass_tests +
      (parse_results s rows).1.fail_tests +
      (parse_results s rows).1.skip_tests + cntUnrec rows.tail := by
  rw [parse_results_snd_eq] at hok
  obtain ⟨-, ht, hp, hf, hk, -, -, -⟩ := parse_results_spec s rows hok
  rw [ht, hp, hf, hk, hs, cnt_split rows.tail]
  omega

/-- Witness for claim C1 at a concrete report containing an unrecognized
status literal. -/
theorem parse_results_total_is_sum_witness :
    (parse_results initMTS csvUnrecognized).1.total_tests =
      (parse_results initMTS csvUnrecognized).1.pass_tests +
      (parse_results initMTS csvUnrecognized).1.fail_tests +
      (parse_results initMTS csvUnrecognized).1.skip_tests +
      cntUnrec csvUnrecognized.tail :=
  parse_results_total_is_sum initMTS csvUnrecognized rfl (by decide)

/-- Claim C2: when the row loop of parse_results consumes the full file,
parse_results does not raise; if the total counter is then positive the
result percentage equals 100 times the pass counter divided by the total
counter, and if the total counter is zero the percentage keeps the value it
had before the call. -/
theorem parse_results_percentage (s : MTS) (rows : List (List String))
    (hloop : (processRows rows 0 none s).2 = true) :
    (parse_results s rows).2 = true ∧
    (0 < (parse_results s rows).1.total_tests →
      (parse_results s rows).1.result =
        100 * (((parse_results s rows).1.pass_tests : ℚ) /
          ((parse_results s rows).1.total_tests : ℚ))) ∧
    ((parse_results s rows).1.total_tests = 0 →
      (parse_results s rows).1.result = s.result) := by
  have hok : okRun rows.tail none = true := by
    rw [processRows_zero] at hloop
    rw [← processRows_snd rows.tail 1 none s (by decide)]
    exact hloop
  obtain ⟨hsnd, -, -, -, -, -, hz, hp⟩ := parse_results_spec s rows hok
  exact ⟨hsnd, hp, hz⟩

/-- Witness for claim C2 at the Scenario C report. -/
theorem parse_results_percentage_witness :
    (parse_results initMTS csvScenarioC).2 = true ∧
    (0 < (parse_results initMTS csvScenarioC).1.total_tests →
      (parse_results initMTS csvScenarioC).1.result =
        100 * (((parse_results initMTS csvScenarioC).1.pass_tests : ℚ) /
          ((parse_results initMTS csvScenarioC).1.total_tests : ℚ))) ∧
    ((parse_results initMTS csvScenarioC).1.total_tests = 0 →
      (parse_results initMTS csvScenarioC).1.result = initMTS.result) :=
  parse_results_percentage initMTS csvScenarioC (by decide)

/-- Counterexample to claim C3 as stated: parsing the Scenario C report twice
in succession on the same driver does not yield the same total counter as
parsing it once, because the counters are never reset between calls. -/
theorem parse_results_twice_differs :
    (parse_results (parse_results initMTS csvScenarioC).1
        csvScenarioC).1.total_tests ≠
      (parse_results initMTS csvScenarioC).1.total_tests := by decide

/-- Claim C3 amended: parse_results is not idempotent but additive. Re-parsing
the same CSV content on the driver succeeds again and yields counters equal
to twice those obtained from a single parse on a fresh driver. -/
theorem parse_results_accumulates (rows : List (List String))
    (h1 : (parse_results initMTS rows).2 = true) :
    (parse_results (parse_results initMTS rows).1 rows).2 = true ∧
    (parse_results (parse_results initMTS rows).1 rows).1.total_tests =
      2 * (parse_results initMTS rows).1.total_tests ∧
    (parse_results (parse_results initMTS rows).1 rows).1.pass_tests =
      2 * (parse_results initMTS rows).1.pass_tests ∧
    (parse_results (parse_results initMTS rows).1 rows).1.fail_tests =
      2 * (parse_results initMTS rows).1.fail_tests ∧
    (parse_results (parse_results initMTS rows).1 rows).1.skip_tests =
      2 * (parse_results initMTS rows).1.skip_tests := by
  rw [parse_results_snd_eq] at h1
  obtain ⟨-, ht, hp, hf, hk, -, -, -⟩ := parse_results_spec initMTS rows h1
  obtain ⟨hsnd2, ht2, hp2, hf2, hk2, -, -, -⟩ :=
    parse_results_spec (parse_results initMTS rows).1 rows h1
  have e1 : initMTS.total_tests = 0 := rfl
  have e2 : initMTS.pass_tests = 0 := rfl
  have e3 : initMTS.fail_tests = 0 := rfl
  have e4 : initMTS.skip_tests = 0 := rfl
  exact ⟨hsnd2, by omega, by omega, by omega, by omega⟩

/-- Witness for the amended claim C3 at the Scenario C report. -/
theorem parse_results_accumulates_witness :
    (parse_results (parse_results initMTS csvScenarioC).1 csvScenarioC).2 =
      true ∧
    (parse_results (parse_results initMTS csvScenarioC).1
        csvScenarioC).1.total_tests =
      2 * (parse_results initMTS csvScenarioC).1.total_tests ∧
    (parse_results (parse_results initMTS csvScenarioC).1
        csvScenarioC).1.pass_tests =
      2 * (parse_results initMTS csvScenarioC).1.pass_tests ∧
    (parse_results (parse_results initMTS csvScenarioC).1
        csvScenarioC).1.fail_tests =
      2 * (parse_results initMTS csvScenarioC).1.fail_tests ∧
    (parse_results (parse_results initMTS csvScenarioC).1
        csvScenarioC).1.skip_tests =
      2 * (parse_results initMTS csvScenarioC).1.skip_tests :=
  parse_results_accumulates csvScenarioC (by decide)

/-- Claim C4: check_enabled_mts_test_cases returns true exactly when every
requested name is among the declared test-case names, and returns true on an
empty request. -/
theorem check_enabled_mts_test_cases_spec (tcs req : List String) :
    (check_enabled_mts_test_cases tcs req = true ↔ ∀ x ∈ req, x ∈ tcs) ∧
    check_enabled_mts_test_cases tcs [] = true :=
  ⟨check_enabled_iff_mem tcs req, rfl⟩

/-- Claim C5: when execute receives a non-empty enabled-test-case list
containing a name absent from the declared universe, it returns the sentinel
code -3 and performs no side effect: no file or directory cleanup and no
subprocess launch. -/
theorem execute_invalid_selection (s : MTS) (res_dir tf : String)
    (ll sm : Option String) (enabled : List String) (e : String)
    (he : e ∈ enabled) (habs : e ∉ s.testcases)
    (csvExists statsIsDir logsIsDir : Bool) (launchExit : Int) :
    execute s res_dir
      { test_file := some tf, log_level := ll, store_method := sm,
        testcases := some enabled }
      csvExists statsIsDir logsIsDir launchExit = (-3, []) := by
  rcases enabled with _ | ⟨e0, rest⟩
  · exact absurd he (List.not_mem_nil e)
  · cases hc : check_enabled_mts_test_cases s.testcases (e0 :: rest) with
    | true => exact absurd ((check_enabled_iff_mem _ _).mp hc e he) habs
    | false => simp [execute, hc]

/-- Witness for claim C5: requesting a test case outside the declared
universe yields -3 with no side effects. -/
theorem execute_invalid_selection_witness :
    execute { initMTS with testcases := ["a", "b"] } "/res"
      { test_file := some "test.xml", log_level := none, store_method := none,
        testcases := some ["c"] } false false false 0 = (-3, []) :=
  execute_invalid_selection { initMTS with testcases := ["a", "b"] } "/res"
    "test.xml" none none ["c"] "c" (by decide) (by decide) false false false 0

/-- Claim C6: when the XML test definition contains zero testcase nodes, run
returns the run-error status, performs no side effect (in particular never
launches the subprocess), and parses no result. -/
theorem run_no_testcases (s : MTS) (res_dir tf : String)
    (ll sm : Option String) (tcs : Option (List String)) (root : XElem)
    (hroot : collectTestcaseNames false root = [])
    (csvExists statsIsDir logsIsDir : Bool) (launchExit : Int)
    (csvFile : Option (List (List String))) :
    run s res_dir
      { test_file := some tf, log_level := ll, store_method := sm,
        testcases := tcs }
      (some root) csvExists statsIsDir logsIsDir launchExit csvFile =
      (EX_RUN_ERROR, [], { s with result := 0, testcases := [] }) := by
  simp [run, parse_xml_test_file, hroot]

/-- Witness for claim C6 at a one-element document with no testcase node. -/
theorem run_no_testcases_witness :
    run initMTS "/res"
      { test_file := some "test.xml", log_level := none, store_method := none,
        testcases := none }
      (some (XElem.elem "scenario" none [])) false false false 0 none =
      (EX_RUN_ERROR, [], { initMTS with result := 0, testcases := [] }) :=
  run_no_testcases initMTS "/res" "test.xml" none none none
    (XElem.elem "scenario" none []) rfl false false false 0 none

/-- Claim C7: parse_xml_test_file returns the count of extracted names and
stores them: on a well-formed document it returns the number of testcase
nodes matched below test nodes (zero, with an empty stored sequence, when
there are none), and on a document that is not well-formed XML it returns the
non-zero, non-positive count -1 and leaves the state untouched. -/
theorem parse_xml_test_file_spec (s : MTS) (root : XElem) :
    ((parse_xml_test_file s (some root)).1 =
        ((collectTestcaseNames false root).length : Int) ∧
      (parse_xml_test_file s (some root)).2.testcases =
        collectTestcaseNames false root) ∧
    ((parse_xml_test_file s none).1 = -1 ∧
      (parse_xml_test_file s none).1 ≠ 0 ∧
      (parse_xml_test_file s none).1 < 0 ∧
      (parse_xml_test_file s none).2 = s) :=
  ⟨⟨rfl, rfl⟩, rfl, show (-1 : Int) ≠ 0 by decide,
    show (-1 : Int) < 0 by decide, rfl⟩

/-- Claim C8: when execute is called without the required test-plan filename
argument, the KeyError is caught and it returns the failure code -1 without
performing any side effect, in particular without any subprocess launch. -/
theorem execute_missing_test_file (s : MTS) (res_dir : String)
    (ll sm : Option String) (tcs : Option (List String))
    (csvExists statsIsDir logsIsDir : Bool) (launchExit : Int) :
    execute s res_dir
      { test_file := none, log_level := ll, store_method := sm,
        testcases := tcs }
      csvExists statsIsDir logsIsDir launchExit = (-1, []) := rfl

/-- Claim C9: the Scenario C report (header, one 2-field group row, two
3-field rows with statuses OK and Failed) parsed on a fresh driver yields
total 2, pass 1, fail 1, skip 0 and percentage 50. -/
theorem parse_results_scenario_c :
    (parse_results initMTS csvScenarioC).2 = true ∧
    (parse_results initMTS csvScenarioC).1.total_tests = 2 ∧
    (parse_results initMTS csvScenarioC).1.pass_tests = 1 ∧
    (parse_results initMTS csvScenarioC).1.fail_tests = 1 ∧
    (parse_results initMTS csvScenarioC).1.skip_tests = 0 ∧
    (parse_results initMTS csvScenarioC).1.result = 50 := by
  obtain ⟨hsnd, ht, hp, hf, hk, -, -, hres⟩ :=
    parse_results_spec initMTS csvScenarioC (by decide)
  have ht' : (parse_results initMTS csvScenarioC).1.total_tests = 2 := by
    rw [ht]; decide
  have hp' : (parse_results initMTS csvScenarioC).1.pass_tests = 1 := by
    rw [hp]; decide
  have hf' : (parse_results initMTS csvScenarioC).1.fail_tests = 1 := by
    rw [hf]; decide
  have hk' : (parse_results initMTS csvScenarioC).1.skip_tests = 0 := by
    rw [hk]; decide
  refine ⟨hsnd, ht', hp', hf', hk', ?_⟩
  have hr := hres (by omega)
  rw [hp', ht'] at hr
  rw [hr]
  norm_num

/-- Claim C10: whenever the first data row after the header has exactly three
fields, parse_results aborts with the unbound group-name error raised while
building the report table, since no 2-field row has assigned the group name
yet. -/
theorem parse_results_first_row_three_fields (s : MTS) (hdr row : List String)
    (rest : List (List String)) (h3 : row.length = 3) :
    (parse_results s (hdr :: row :: rest)).2 = false := by
  rw [parse_results_snd_eq]
  show okRun (row :: rest) none = false
  simp only [okRun]
  rw [if_neg (by omega : ¬ row.length = 2), if_pos h3]
  rfl

/-- Witness for claim C10 at the concrete report whose first data row has
three fields. -/
theorem parse_results_first_row_three_fields_witness :
    (parse_results initMTS csvNoGroup).2 = false :=
  parse_results_first_row_three_fields initMTS
    ["MTS test", "MTS test case", "status"] ["  Registration", "x", "OK"] []
    rfl
